import Mathlib

/-!
Shallow embedding of the logic-simulator front end (GF2_Software):
the name table (`logsim/names.py`), the scanner (`logsim/scanner.py`)
and the recursive-descent parser (`logsim/parse.py`), together with
spec-modelled device/network/monitor builder collaborators (those
classes are not part of the sources; only their contracts are given
in the specification, section 6).

Python strings are `String`, Python `None`-able symbol payloads are
`Option PyVal` (a payload is an `int` name id or the digit string of
a number token), end-of-input (`""` as current character) is
`Option Char` with `none` for `""`.  Loops of the source that can
really run forever are embedded as fuel-indexed structural recursions
whose fuel bound is provably sufficient for every terminating run;
a genuinely diverging run is the explicit result `div`.
-/

set_option maxRecDepth 10000
set_option maxHeartbeats 4000000

namespace Logsim

/-- A dynamically typed Python value as it occurs in symbol payloads:
an integer (interned name id) or a string (digit run of a number token). -/
inductive PyVal : Type
  | int (n : Int)
  | str (s : String)
deriving DecidableEq

/-- The symbol kinds of `Scanner.symbol_type_list` (integers 0..10 in the
source) together with `NONE` for the Python `None` assigned to filler words. -/
inductive SymType : Type
  | COMMA | SEMICOLON | DOT | LINECOMMENT | KEYWORD | NUMBER
  | CURLY_OPEN | CURLY_CLOSE | NAME | EOF | BULKCOMMENT | NONE
deriving DecidableEq

/-- `scanner.Symbol`: kind, payload and source position. -/
structure Symbol : Type where
  type : SymType
  id : Option PyVal
  line_number : Nat
  position : Int
deriving DecidableEq

/- ===================== Names (logsim/names.py) ===================== -/

/-- The state of a `names.Names` instance: the list of interned strings
and the running error-code counter. -/
structure NamesState : Type where
  error_code_count : Nat
  names : List String
deriving DecidableEq

namespace Names

/-- A fresh `Names()` instance. -/
def init : NamesState := { error_code_count := 0, names := [] }

/-- `Names.unique_error_codes`: bump the counter by `n` and return the
fresh contiguous range. -/
def unique_error_codes (st : NamesState) (n : Nat) : List Nat × NamesState :=
  (List.range' st.error_code_count n, { st with error_code_count := st.error_code_count + n })

/-- Python `str.isalnum` restricted to ASCII, as used on identifier strings. -/
def str_isalnum (s : String) : Bool :=
  decide (s.data ≠ []) && s.data.all (fun c => c.isAlpha || c.isDigit)

/-- Python `str.isdigit` restricted to ASCII. -/
def str_isdigit (s : String) : Bool :=
  decide (s.data ≠ []) && s.data.all Char.isDigit

/-- `Names.query` on a string argument (names.py lines 75-86): raises
`SyntaxError` for a non-alphanumeric or all-digit string, otherwise the
index of the string in the names list, or `None` when absent. -/
def query (st : NamesState) (name_string : String) : Except String (Option Nat) :=
  if ¬ str_isalnum name_string then
    Except.error "SyntaxError: name_string is not alphanumeric"
  else if str_isdigit name_string then
    Except.error "SyntaxError: name_string is a digit, must be alphanumber string"
  else if st.names.contains name_string then
    Except.ok (some (st.names.indexOf name_string))
  else
    Except.ok none

/-- `Names.lookup` (names.py lines 89-109), embedded faithfully.  Its two
input guards are contradictory: line 95 raises `TypeError` unless the
argument is a `str`, and line 97 raises `TypeError` unless the argument is
a `list`; hence every call with a list of strings (the documented argument
type, and the one every caller uses) raises at line 96 and the loop body is
never reached. -/
def lookup (st : NamesState) (name_string_list : List String) :
    Except String (Int × NamesState) :=
  let _ := st
  let _ := name_string_list
  Except.error "TypeError: Expected name_string to be a string."

/-- The per-element loop of `Names.lookup` (names.py lines 100-108): for
each string, append it to the names list when absent and record its index.
This is the behaviour the scanner's destructuring assignments
(`[symbol.id] = self.names.lookup([...])`, scanner.py lines 91-94 and 126)
rely on; the method itself errors out at its guards (see `Names.lookup`)
and, past them, line 109 would return only the final index. -/
def lookup_loop : List String → List String → List Nat × List String
  | names, [] => ([], names)
  | names, x :: rest =>
    let names1 := if names.contains x then names else names ++ [x]
    let idx := names1.indexOf x
    let r := lookup_loop names1 rest
    (idx :: r.1, r.2)

/-- What `Names.lookup` would return past its guards: the loop of lines
100-108 followed by line 109's `return id`, i.e. only the index of the
final list element (`none` when the list is empty and `id` is unbound). -/
def lookup_body (st : NamesState) (name_string_list : List String) :
    Option Int × NamesState :=
  let r := lookup_loop st.names name_string_list
  ((r.1.getLast?).map Int.ofNat, { st with names := r.2 })

/-- `Names.get_name_string` (names.py lines 114-125): `ValueError` for a
negative id, the string at the index otherwise, `None` when out of range. -/
def get_name_string (st : NamesState) (name_id : Int) : Except String (Option String) :=
  if name_id < 0 then Except.error "ValueError: name_id should be larger than zero"
  else Except.ok (st.names.get? name_id.toNat)

end Names

/- ===================== Scanner (logsim/scanner.py) ===================== -/

/-- The mutable state of a `scanner.Scanner` built in string mode
(`read_as_string = True`), together with the shared `Names` list it interns
into.  `current_character = none` models Python's empty string at
end-of-input. -/
structure ScanState : Type where
  input : List Char
  character_count : Nat
  current_character : Option Char
  current_line_number : Nat
  current_position : Int
  word_number : Nat
  names : List String
deriving DecidableEq

namespace Scanner

/-- `Scanner.keywords_list`. -/
def keywordsList : List String :=
  ["Device", "device", "Connection", "Monitor", "is", "are", "input", "connect"]

/-- `Scanner.ignore`, the filler words. -/
def ignoreList : List String :=
  ["gate", "gates", "a", "an", "with", "some", "initially", "inputs",
   "connected", "cycles", "simulation"]

/-- Ids of the pre-interned keywords (their indices in a fresh names list,
scanner.py lines 91-94). -/
def DEVICE_ID : Int := 0
/-- Id of the lowercase keyword "device" (never consulted by the parser). -/
def DEVICE_LOWER_ID : Int := 1
/-- Id of the keyword "Connection". -/
def CONNECTION_ID : Int := 2
/-- Id of the keyword "Monitor". -/
def MONITOR_ID : Int := 3
/-- Id of the keyword "is". -/
def IS_ID : Int := 4
/-- Id of the keyword "are". -/
def ARE_ID : Int := 5
/-- Id of the keyword "input". -/
def INPUT_ID : Int := 6
/-- Id of the keyword "connect". -/
def CONNECT_ID : Int := 7

/-- `Scanner.advance` in string mode (scanner.py lines 203-221): load the
character at `character_count` and bump the counters, or set the current
character to end-of-input (leaving the counters alone) when the index is
out of range; after reading a newline, bump the line number and reset the
column to -1 (the next advance brings it back to 0). -/
def advance (s : ScanState) : ScanState :=
  if h : s.character_count < s.input.length then
    let c := s.input.get ⟨s.character_count, h⟩
    let s1 := { s with current_character := some c,
                       character_count := s.character_count + 1,
                       current_position := s.current_position + 1 }
    if c = '\n' then
      { s1 with current_line_number := s1.current_line_number + 1, current_position := -1 }
    else s1
  else
    { s with current_character := none }

/-- Python `str.isspace` on the current character (`False` at end-of-input). -/
def isspace_c : Option Char → Bool
  | some c => c = ' ' || c = '\t' || c = '\n' || c = '\x0b' || c = '\x0c' || c = '\r'
  | none => false

/-- Progress measure for the scanner's character loops: every `advance`
from a state with a loaded character strictly decreases it. -/
def scanMeasure (s : ScanState) : Nat :=
  2 * (s.input.length - s.character_count) + (if s.current_character.isSome then 1 else 0)

/-- The loop of `Scanner.skip_spaces`; the fuel bound chosen at the wrapper
is sufficient for every run, since the loop body requires a loaded
whitespace character and `advance` then decreases `scanMeasure`. -/
def skip_aux : Nat → ScanState → ScanState
  | 0, s => s
  | n + 1, s => if isspace_c s.current_character then skip_aux n (advance s) else s

/-- `Scanner.skip_spaces` (scanner.py lines 250-254). -/
def skip_spaces (s : ScanState) : ScanState := skip_aux (scanMeasure s + 1) s

/-- The loop of `Scanner.get_name` (scanner.py lines 230-235): advance,
extend the run while alphanumeric, stop at (and keep loaded) the first
non-alphanumeric character. -/
def name_aux : Nat → String → ScanState → String × ScanState
  | 0, acc, s => (acc, s)
  | n + 1, acc, s =>
    let s1 := advance s
    match s1.current_character with
    | some c => if c.isAlphanum then name_aux n (acc.push c) s1 else (acc, s1)
    | none => (acc, s1)

/-- `Scanner.get_name` (scanner.py lines 223-235), started from the loaded
alphabetic character `c`. -/
def get_name (c : Char) (s : ScanState) : String × ScanState :=
  name_aux (scanMeasure s + 1) (String.singleton c) s

/-- The loop of `Scanner.get_number` (scanner.py lines 243-248). -/
def number_aux : Nat → String → ScanState → String × ScanState
  | 0, acc, s => (acc, s)
  | n + 1, acc, s =>
    let s1 := advance s
    match s1.current_character with
    | some c => if c.isDigit then number_aux n (acc.push c) s1 else (acc, s1)
    | none => (acc, s1)

/-- `Scanner.get_number` (scanner.py lines 237-248), started from the
loaded digit `c`; the digit run is kept as a string, exactly as the source
does. -/
def get_number (c : Char) (s : ScanState) : String × ScanState :=
  number_aux (scanMeasure s + 1) (String.singleton c) s

/-- The line-comment loop of `get_symbol` (scanner.py lines 167-169):
advance until a newline is loaded.  When end-of-input is reached first the
Python loop runs forever (`advance` keeps returning the empty string), so
the embedding answers `none` for divergence; `line_aux_reaches` below shows
the fuel bound used by `get_symbol` suffices whenever a newline is ahead. -/
def line_aux : Nat → ScanState → Option ScanState
  | 0, _ => none
  | n + 1, s =>
    if s.current_character = some '\n' then some s
    else if s.input.length ≤ s.character_count ∧ s.current_character = none then none
    else line_aux n (advance s)

/-- Result of the bulk-comment loop (scanner.py lines 179-188).  The body
never advances the scanner: a loaded `/` bumps the slash counter, a loaded
end-of-input raises, and any other loaded character resets the counter and
therefore loops forever (`div`). -/
inductive BulkRes : Type
  | done | eofErr | div
deriving DecidableEq

/-- The bulk-comment loop, counted down by the number of slashes still
needed (the loop exits at two consecutive slashes and its body never
changes the scanner state). -/
def bulk_aux : Nat → ScanState → BulkRes
  | 0, _ => BulkRes.done
  | need + 1, s =>
    match s.current_character with
    | some c => if c = '/' then bulk_aux need s else BulkRes.div
    | none => BulkRes.eofErr

/-- Result of one `Scanner.get_symbol` call: a symbol and the post state,
a raised `SyntaxError`, or divergence of one of the scanning loops. -/
inductive ScanRes : Type
  | ok (sym : Symbol) (s : ScanState)
  | err (msg : String)
  | div
deriving DecidableEq

/-- `word_number += 1` at the end of `get_symbol` (scanner.py line 200). -/
def bump (s : ScanState) : ScanState := { s with word_number := s.word_number + 1 }

/-- `Scanner.get_symbol` (scanner.py lines 108-201), embedded branch by
branch.  The name branch interns through `Names.lookup_loop` (the loop body
of `Names.lookup`, see there), the keyword branch queries without interning,
the filler branch yields kind `NONE` without interning.  A `#` comment
skips to (and stays on) the newline and yields a `LINECOMMENT` symbol; a
`//` opener runs the never-advancing slash loop and yields a `BULKCOMMENT`
symbol after advancing once past the second opening slash. -/
def get_symbol (s0 : ScanState) : ScanRes :=
  let s := skip_spaces s0
  let ln := s.current_line_number
  let pos := s.current_position
  match s.current_character with
  | none =>
    ScanRes.ok { type := SymType.EOF, id := none, line_number := ln, position := pos } (bump s)
  | some c =>
    if c.isAlpha then
      let nr := get_name c s
      let name_string := nr.1
      let s1 := nr.2
      if ignoreList.contains name_string then
        ScanRes.ok { type := SymType.NONE, id := none, line_number := ln, position := pos }
          (bump s1)
      else if keywordsList.contains name_string then
        match Names.query { error_code_count := 0, names := s1.names } name_string with
        | Except.error e => ScanRes.err e
        | Except.ok r =>
          ScanRes.ok { type := SymType.KEYWORD,
                       id := r.map (fun n => PyVal.int (Int.ofNat n)),
                       line_number := ln, position := pos } (bump s1)
      else
        let lr := Names.lookup_loop s1.names [name_string]
        ScanRes.ok { type := SymType.NAME,
                     id := some (PyVal.int (Int.ofNat (lr.1.headD 0))),
                     line_number := ln, position := pos }
          (bump { s1 with names := lr.2 })
    else if c.isDigit then
      let nr := get_number c s
      ScanRes.ok { type := SymType.NUMBER, id := some (PyVal.str nr.1),
                   line_number := ln, position := pos } (bump nr.2)
    else if c = ',' then
      ScanRes.ok { type := SymType.COMMA, id := none, line_number := ln, position := pos }
        (bump (advance s))
    else if c = '\x7b' then
      ScanRes.ok { type := SymType.CURLY_OPEN, id := none, line_number := ln, position := pos }
        (bump (advance s))
    else if c = '\x7d' then
      ScanRes.ok { type := SymType.CURLY_CLOSE, id := none, line_number := ln, position := pos }
        (bump (advance s))
    else if c = ';' then
      ScanRes.ok { type := SymType.SEMICOLON, id := none, line_number := ln, position := pos }
        (bump (advance s))
    else if c = '.' then
      ScanRes.ok { type := SymType.DOT, id := none, line_number := ln, position := pos }
        (bump (advance s))
    else if c = '#' then
      match line_aux (scanMeasure (advance s) + 1) (advance s) with
      | some s2 =>
        ScanRes.ok { type := SymType.LINECOMMENT, id := none, line_number := ln, position := pos }
          (bump s2)
      | none => ScanRes.div
    else if c = '/' then
      let s1 := advance s
      if s1.current_character = some '/' then
        match bulk_aux 2 s1 with
        | BulkRes.done =>
          ScanRes.ok { type := SymType.BULKCOMMENT, id := none,
                       line_number := ln, position := pos } (bump (advance s1))
        | BulkRes.eofErr => ScanRes.err "SyntaxError: eof while still in a bulk comment"
        | BulkRes.div => ScanRes.div
      else
        ScanRes.ok { type := SymType.BULKCOMMENT, id := none,
                     line_number := ln, position := pos } (bump s1)
    else
      ScanRes.err "SyntaxError: Error: Invalid character encounter"

/-- A freshly constructed string-mode `Scanner` over `input` (scanner.py
lines 56-106): counters at zero, the artificial initial blank loaded, and
the keyword list interned into the shared names list (through the loop body
of `Names.lookup`, as the constructor's destructuring assignment relies on). -/
def mkScanner (input : String) : ScanState :=
  { input := input.data, character_count := 0, current_character := some ' ',
    current_line_number := 0, current_position := 0, word_number := 0,
    names := (Names.lookup_loop [] keywordsList).2 }

end Scanner

/- ========== Collaborators (spec section 6; not part of the sources) ========== -/

namespace Devices

/-- Modelled from the spec: the device-builder collaborator's error codes
(`devices.Devices` is absent from the sources; spec sections 4.3 and 6 list
the variants `Ok`, invalid/missing/duplicate qualifier, bad device, device
already declared).  Codes are allocated contiguously from the shared
`Names.unique_error_codes` counter, this component first. -/
def NO_ERROR : Nat := 0
/-- Modelled from the spec: invalid device qualifier. -/
def INVALID_QUALIFIER : Nat := 1
/-- Modelled from the spec: missing device qualifier. -/
def NO_QUALIFIER : Nat := 2
/-- Modelled from the spec: unknown device kind. -/
def BAD_DEVICE : Nat := 3
/-- Modelled from the spec: qualifier given for a kind that takes none. -/
def QUALIFIER_PRESENT : Nat := 4
/-- Modelled from the spec: device already declared. -/
def DEVICE_PRESENT : Nat := 5

/-- Modelled from the spec: the state of the device builder — its static
kind sets (as interned ids), the flip-flop kind and its port id sets, and
the devices built so far as (id, kind, property) triples. -/
structure DevicesState : Type where
  gate_types : List PyVal
  device_types : List PyVal
  D_TYPE_v : PyVal
  dtype_output_ids : List PyVal
  dtype_input_ids : List PyVal
  devices_list : List (Option PyVal × Option PyVal × Option PyVal)
deriving DecidableEq

/-- Modelled from the spec: constructing the device builder interns its
gate kinds (AND, OR, NAND, NOR, XOR), device kinds (CLOCK, SWITCH, DTYPE)
and the flip-flop port names into the shared name table. -/
def devicesStart (names : List String) : DevicesState × List String :=
  let g := Names.lookup_loop names ["AND", "OR", "NAND", "NOR", "XOR"]
  let d := Names.lookup_loop g.2 ["CLOCK", "SWITCH", "DTYPE"]
  let o := Names.lookup_loop d.2 ["Q", "QBAR"]
  let i := Names.lookup_loop o.2 ["CLK", "SET", "CLEAR", "DATA"]
  ({ gate_types := g.1.map (fun n => PyVal.int (Int.ofNat n)),
     device_types := d.1.map (fun n => PyVal.int (Int.ofNat n)),
     D_TYPE_v := PyVal.int (Int.ofNat (d.1.getD 2 0)),
     dtype_output_ids := o.1.map (fun n => PyVal.int (Int.ofNat n)),
     dtype_input_ids := i.1.map (fun n => PyVal.int (Int.ofNat n)),
     devices_list := [] }, i.2)

/-- Modelled from the spec: `Devices.get_device` returns the stored
(device id, device kind) pair, or `None` for an unknown id. -/
def get_device (d : DevicesState) (device_id : Option PyVal) :
    Option (Option PyVal × Option PyVal) :=
  (d.devices_list.find? (fun t => decide (t.1 = device_id))).map (fun t => (t.1, t.2.1))

/-- Modelled from the spec: `Devices.make_device` — duplicate declarations
are rejected, the flip-flop kind takes no qualifier, gate kinds require an
input count in 1..16, the remaining device kinds accept their property,
and an unknown kind is a bad device. -/
def make_device (d : DevicesState) (device_id device_kind device_property : Option PyVal) :
    Nat × DevicesState :=
  if d.devices_list.any (fun t => decide (t.1 = device_id)) then (DEVICE_PRESENT, d)
  else
    let add := { d with devices_list := d.devices_list ++ [(device_id, device_kind, device_property)] }
    if device_kind = some d.D_TYPE_v then
      match device_property with
      | some _ => (QUALIFIER_PRESENT, d)
      | none => (NO_ERROR, add)
    else if (match device_kind with | some k => d.gate_types.contains k | none => false) then
      match device_property with
      | none => (NO_QUALIFIER, d)
      | some (PyVal.int n) => if 1 ≤ n ∧ n ≤ 16 then (NO_ERROR, add) else (INVALID_QUALIFIER, d)
      | some (PyVal.str _) => (INVALID_QUALIFIER, d)
    else if (match device_kind with | some k => d.device_types.contains k | none => false) then
      (NO_ERROR, add)
    else (BAD_DEVICE, d)

end Devices

namespace Network

/-- Modelled from the spec: the connection builder's `Ok` code (block
allocated after the device builder's). -/
def NO_ERROR : Nat := 6
/-- Modelled from the spec: both ports are inputs. -/
def INPUT_TO_INPUT : Nat := 7
/-- Modelled from the spec: both ports are outputs. -/
def OUTPUT_TO_OUTPUT : Nat := 8
/-- Modelled from the spec: the input is already connected. -/
def INPUT_CONNECTED : Nat := 9
/-- Modelled from the spec: referenced port absent. -/
def PORT_ABSENT : Nat := 10
/-- Modelled from the spec: referenced device absent. -/
def DEVICE_ABSENT : Nat := 11

/-- Modelled from the spec: the connection builder's state, the list of
connections made. -/
structure NetworkState : Type where
  connections : List (Option PyVal × Option PyVal × Option PyVal × Option PyVal)
deriving DecidableEq

/-- Modelled from the spec: `Network.make_connection` records the resolved
(device, port) pairs once; a side naming an unknown device is rejected. -/
def make_connection (net : NetworkState) (d : Devices.DevicesState)
    (d1 p1 d2 p2 : Option PyVal) : Nat × NetworkState :=
  if (Devices.get_device d d1).isNone ∨ (Devices.get_device d d2).isNone then
    (DEVICE_ABSENT, net)
  else (NO_ERROR, { connections := net.connections ++ [(d1, p1, d2, p2)] })

end Network

namespace Monitors

/-- Modelled from the spec: the monitor builder's `Ok` code (block
allocated after the connection builder's). -/
def NO_ERROR : Nat := 12
/-- Modelled from the spec: the monitored point is not an output. -/
def NOT_OUTPUT : Nat := 13
/-- Modelled from the spec: the monitor already exists. -/
def MONITOR_PRESENT : Nat := 14

/-- Modelled from the spec: the monitor builder's state, the list of
monitored (device, port-or-absent) points. -/
structure MonitorsState : Type where
  monitored : List (Option PyVal × Option PyVal)
deriving DecidableEq

/-- Modelled from the spec: `Monitors.make_monitor` rejects a duplicate
monitor and a point on an unknown device, and records the point otherwise. -/
def make_monitor (m : MonitorsState) (d : Devices.DevicesState)
    (device port : Option PyVal) : Nat × MonitorsState :=
  if m.monitored.any (fun t => decide (t = (device, port))) then (MONITOR_PRESENT, m)
  else if (Devices.get_device d device).isNone then (NOT_OUTPUT, m)
  else (NO_ERROR, { monitored := m.monitored ++ [(device, port)] })

end Monitors

/- ===================== Parser (logsim/parse.py) ===================== -/

namespace ParserC

/-- `Parser.__init__` allocates fifteen syntax-error codes from the shared
counter (parse.py lines 51-66), after the three collaborators took 0..14. -/
def NO_SECTIONS : Nat := 15
/-- `NO_DEVICE_SECTION` (parse.py line 52). -/
def NO_DEVICE_SECTION : Nat := 16
/-- `NO_CONNECTION_SECTION` (parse.py line 53). -/
def NO_CONNECTION_SECTION : Nat := 17
/-- `NO_MONITOR_SECTION` (parse.py line 54). -/
def NO_MONITOR_SECTION : Nat := 18
/-- `NO_LINKING_VERB` (parse.py line 55). -/
def NO_LINKING_VERB : Nat := 19
/-- `NO_SEMICOLON` (parse.py line 56). -/
def NO_SEMICOLON : Nat := 20
/-- `NO_DOT` (parse.py line 57). -/
def NO_DOT : Nat := 21
/-- `NO_CURLY_OPEN` (parse.py line 58). -/
def NO_CURLY_OPEN : Nat := 22
/-- `NO_CURLY_CLOSE` (parse.py line 59). -/
def NO_CURLY_CLOSE : Nat := 23
/-- `NO_DEVICE` (parse.py line 60). -/
def NO_DEVICE : Nat := 24
/-- `NO_NUM` (parse.py line 61). -/
def NO_NUM : Nat := 25
/-- `NO_CONNECT_SYMBOL` (parse.py line 62). -/
def NO_CONNECT_SYMBOL : Nat := 26
/-- `INVALID_DEVICE_NAME` (parse.py line 63). -/
def INVALID_DEVICE_NAME : Nat := 27
/-- `INVALID_DEVICE_TYPE` (parse.py line 64). -/
def INVALID_DEVICE_TYPE : Nat := 28
/-- `INVALID_PORT` (parse.py line 65). -/
def INVALID_PORT : Nat := 29

/-- `Parser.error_dict` (parse.py lines 68-101): the message bound to each
error code; `none` for a code outside the dictionary (a lookup of such a
code raises `KeyError`). -/
def errorDict : Nat → Option String
  | 15 => some "Error: Expected a section before going further."
  | 16 => some "Error: Expected a device section"
  | 17 => some "Error: Expected a connection section"
  | 18 => some "Error: Expected a monitor section"
  | 19 => some "Error: Expected a linking verb"
  | 20 => some "Error: Expected a \x27;\x27"
  | 21 => some "Error: Expected a \x27.\x27"
  | 22 => some "Error: Expected a \x27\x7b\x27"
  | 23 => some "Error: Expected a \x27\x7d\x27"
  | 24 => some "Error: Expected a device"
  | 25 => some "Error: Expected a number"
  | 26 => some "Error: Expected a connect symbol"
  | 27 => some "Error: Invalid device name"
  | 28 => some "Error: No such a device"
  | 29 => some "Error: Invalid port"
  | 7 => some "Error: Both ports are inputs"
  | 8 => some "Error: Both ports are outputs"
  | 9 => some "Error: Input is already in a connection"
  | 10 => some "Error: Second port is not a valid port"
  | 11 => some "Error: No such a device"
  | 1 => some "Error: Invalid qualifier"
  | 2 => some "Error: No qualifier"
  | 3 => some "Error: bad device"
  | 4 => some "Error: Qualifier present"
  | 5 => some "Error: Device present"
  | 13 => some "Error: Not output"
  | 14 => some "Error: Monitor present"
  | _ => none

end ParserC

/-- One recorded builder invocation, together with the parser's
`error_count` at the moment of the call (ghost instrumentation used to
state when the parser drives its collaborators). -/
inductive BuilderCall : Type
  | device (device_id device_kind device_property : Option PyVal) (ec : Nat)
  | connection (d1 p1 d2 p2 : Option PyVal) (ec : Nat)
  | monitor (device port : Option PyVal) (ec : Nat)
deriving DecidableEq

/-- The `error_count` recorded with a builder call. -/
def BuilderCall.ec : BuilderCall → Nat
  | BuilderCall.device _ _ _ e => e
  | BuilderCall.connection _ _ _ _ e => e
  | BuilderCall.monitor _ _ e => e

/-- The mutable state of a `parse.Parser` together with its collaborators:
scanner (which carries the shared name list), current symbol, error count,
the three write-once section flags (parse.py lines 102-107), and ghost
traces of the builder calls made and the diagnostics printed (message and
offending symbol column). -/
structure ParserState : Type where
  scan : ScanState
  symbol : Symbol
  devices : Devices.DevicesState
  network : Network.NetworkState
  monitors : Monitors.MonitorsState
  error_count : Nat
  device_section : Bool
  connection_section : Bool
  monitor_section : Bool
  calls : List BuilderCall
  printed : List (String × Int)
deriving DecidableEq

/-- Result of a parser computation producing an `α`: normal completion,
a raised Python exception, or divergence (including fuel exhaustion of an
embedded unbounded loop). -/
inductive PResA (α : Type) : Type
  | ok (a : α) (ps : ParserState)
  | err (msg : String)
  | div

/-- Parser computations as a state monad over `ParserState` with
exceptions and divergence. -/
def PM (α : Type) : Type := ParserState → PResA α

instance : Monad PM where
  pure a := fun ps => PResA.ok a ps
  bind x f := fun ps =>
    match x ps with
    | PResA.ok a ps1 => f a ps1
    | PResA.err e => PResA.err e
    | PResA.div => PResA.div

/-- Read the current parser state. -/
def getPS : PM ParserState := fun ps => PResA.ok ps ps

/-- Replace the parser state. -/
def setPS (ps : ParserState) : PM Unit := fun _ => PResA.ok () ps

/-- Raise a Python exception. -/
def throwPM {α : Type} (e : String) : PM α := fun _ => PResA.err e

/-- `self.symbol = self.scanner.get_symbol()`: pull the next symbol,
propagating a scanner exception or divergence. -/
def pullPM : PM Unit := fun ps =>
  match Scanner.get_symbol ps.scan with
  | Scanner.ScanRes.ok sym s1 => PResA.ok () { ps with scan := s1, symbol := sym }
  | Scanner.ScanRes.err e => PResA.err e
  | Scanner.ScanRes.div => PResA.div

/-- The resynchronisation loop of `Parser.display_error` (parse.py lines
463-469): pull symbols while the current one is none of `SEMICOLON`,
`CURLY_CLOSE`, `EOF`. -/
def skip_to_delim : Nat → PM Unit
  | 0 => fun _ => PResA.div
  | fuel + 1 => fun ps =>
    if ps.symbol.type = SymType.SEMICOLON ∨ ps.symbol.type = SymType.CURLY_CLOSE ∨
        ps.symbol.type = SymType.EOF then
      PResA.ok () ps
    else
      match pullPM ps with
      | PResA.ok _ ps1 => skip_to_delim fuel ps1
      | PResA.err e => PResA.err e
      | PResA.div => PResA.div

/-- `Parser.display_error` (parse.py lines 451-473): bump `error_count`,
record the dictionary message with the offending symbol's column (a
missing dictionary entry raises `KeyError`), and — unless `skip` is false —
resynchronise to a `SEMICOLON`, `CURLY_CLOSE` or `EOF` symbol, consuming
it only when it is the semicolon (lines 471-472). -/
def display_error (fuel : Nat) (error_type : Nat) (skip : Bool) : PM Unit := fun ps =>
  let ps1 := { ps with error_count := ps.error_count + 1 }
  match ParserC.errorDict error_type with
  | none => PResA.err "KeyError: error code not in error_dict"
  | some msg =>
    let ps2 := { ps1 with printed := ps1.printed ++ [(msg, ps1.symbol.position)] }
    if ¬ skip then PResA.ok () ps2
    else
      match skip_to_delim fuel ps2 with
      | PResA.ok _ ps3 =>
        if ps3.symbol.type = SymType.SEMICOLON then pullPM ps3 else PResA.ok () ps3
      | PResA.err e => PResA.err e
      | PResA.div => PResA.div

/-- `Parser.ignore_none` (parse.py lines 411-417): pull while the current
symbol is a filler (`None` kind). -/
def ignore_none : Nat → PM Unit
  | 0 => fun _ => PResA.div
  | fuel + 1 => fun ps =>
    if ps.symbol.type = SymType.NONE then
      match pullPM ps with
      | PResA.ok _ ps1 => ignore_none fuel ps1
      | PResA.err e => PResA.err e
      | PResA.div => PResA.div
    else PResA.ok () ps

/-- The comma loop of `Parser.parse_device` (parse.py lines 211-219):
collect further names; a non-name after a comma reports
`INVALID_DEVICE_NAME` (with resynchronisation) and breaks. -/
def device_name_loop (fuel : Nat) : Nat → List (Option PyVal) → PM (List (Option PyVal))
  | 0, _ => fun _ => PResA.div
  | n + 1, device_info => do
    let st ← getPS
    if st.symbol.type = SymType.COMMA then do
      pullPM
      let st2 ← getPS
      if st2.symbol.type = SymType.NAME then do
        pullPM
        device_name_loop fuel n (device_info ++ [st2.symbol.id])
      else do
        display_error fuel ParserC.INVALID_DEVICE_NAME true
        pure device_info
    else pure device_info

/-- The build loop of the flip-flop branch of `parse_device` (parse.py
lines 240-247): one `make_device` per collected name with no property; a
failing call is reported without resynchronisation and breaks the loop. -/
def make_device_loop_dtype (fuel : Nat) :
    List (Option PyVal) → Option PyVal → PM Unit
  | [], _ => pure ()
  | i :: rest, device_kind => do
    let st ← getPS
    let r := Devices.make_device st.devices i device_kind none
    setPS { st with devices := r.2,
                    calls := st.calls ++ [BuilderCall.device i device_kind none st.error_count] }
    if r.1 ≠ Devices.NO_ERROR then display_error fuel r.1 false
    else make_device_loop_dtype fuel rest device_kind

/-- The build loop of the gate branch of `parse_device` (parse.py lines
271-280): one `make_device` per collected name with the numeric property;
on a failing call the source passes the unbound local `device_er` to
`display_error`, raising `NameError`. -/
def make_device_loop_gate :
    List (Option PyVal) → Option PyVal → Option PyVal → PM Unit
  | [], _, _ => pure ()
  | i :: rest, device_kind, prop => do
    let st ← getPS
    let r := Devices.make_device st.devices i device_kind prop
    setPS { st with devices := r.2,
                    calls := st.calls ++ [BuilderCall.device i device_kind prop st.error_count] }
    if r.1 ≠ Devices.NO_ERROR then throwPM "NameError: name device_er is not defined"
    else make_device_loop_gate rest device_kind prop

/-- The numeric value of a digit run. -/
def py_digits_to_nat (l : List Char) : Nat :=
  l.foldl (fun acc c => 10 * acc + (c.toNat - 48)) 0

/-- Python `int(...)` on a symbol payload, as applied to a `NUMBER`
symbol's digit string at parse.py line 275 (such payloads are exactly the
non-empty digit runs produced by `Scanner.get_number`; other strings raise
`ValueError`). -/
def py_int_conv : Option PyVal → Except String PyVal
  | some (PyVal.int n) => Except.ok (PyVal.int n)
  | some (PyVal.str s) =>
    if s.data ≠ [] ∧ s.data.all Char.isDigit then
      Except.ok (PyVal.int (Int.ofNat (py_digits_to_nat s.data)))
    else Except.error "ValueError: invalid literal for int"
  | none => Except.error "TypeError: int() argument is None"

/-- `Parser.parse_device` (parse.py lines 197-304), embedded branch by
branch: name list, linking verb, kind check against the builder's static
sets (a valid name that is no known kind falls through silently, the
`else` at line 299 belonging to the name check), then the flip-flop or
gate branch with its build loop guarded by `error_count == 0`, and the
closing semicolon. -/
def parse_device (fuel : Nat) : PM Unit := do
  let st ← getPS
  if st.symbol.type = SymType.NAME then do
    pullPM
    let device_info ← device_name_loop fuel fuel [st.symbol.id]
    let st2 ← getPS
    if st2.symbol.id = some (PyVal.int Scanner.IS_ID) ∨
        st2.symbol.id = some (PyVal.int Scanner.ARE_ID) then do
      pullPM
      let st3 ← getPS
      if st3.symbol.type = SymType.NAME then do
        let gate_type := (match st3.symbol.id with
          | some k => st3.devices.gate_types.contains k
          | none => false)
        let device_type := (match st3.symbol.id with
          | some k => st3.devices.device_types.contains k
          | none => false)
        if gate_type || device_type then do
          let device_kind := st3.symbol.id
          if device_kind = some st3.devices.D_TYPE_v then do
            (if st3.error_count = 0 then make_device_loop_dtype fuel device_info device_kind
             else pure ())
            pullPM
            let st4 ← getPS
            if st4.symbol.type ≠ SymType.SEMICOLON then
              display_error fuel ParserC.NO_SEMICOLON true
            else pullPM
          else do
            pullPM
            ignore_none fuel
            let st4 ← getPS
            if st4.symbol.type = SymType.NUMBER then do
              (if st4.error_count = 0 then
                match py_int_conv st4.symbol.id with
                | Except.error e => throwPM e
                | Except.ok v => make_device_loop_gate device_info device_kind (some v)
               else pure ())
              pullPM
              ignore_none fuel
              let st5 ← getPS
              if st5.symbol.type ≠ SymType.SEMICOLON then
                display_error fuel ParserC.NO_SEMICOLON true
              else pullPM
            else display_error fuel ParserC.NO_NUM true
        else pure ()
      else display_error fuel ParserC.INVALID_DEVICE_NAME true
    else display_error fuel ParserC.NO_LINKING_VERB true
  else display_error fuel ParserC.INVALID_DEVICE_NAME true

/-- `Parser.parse_connection` (parse.py lines 310-377).  The left-hand
side: unknown device, flip-flop with mandatory dotted output port, or any
other device with port `None`; a missing left dot leaves the local
`first_device_port` unbound, and an unknown left device leaves
`first_device` as Python `None` — both only reachable at the build point
with `error_count = 0`, where they would raise.  Then the `connect`
keyword, the right-hand side with mandatory dot and port name, the closing
semicolon, and the single guarded `make_connection`. -/
def parse_connection (fuel : Nat) : PM Unit := do
  let st ← getPS
  if st.symbol.type = SymType.NAME then do
    let first_device := Devices.get_device st.devices st.symbol.id
    let fdp ← (match first_device with
      | none => do
        display_error fuel ParserC.INVALID_DEVICE_NAME true
        pullPM
        pure (none : Option (Option PyVal))
      | some fd =>
        if fd.2 = some st.devices.D_TYPE_v then do
          pullPM
          let st2 ← getPS
          if st2.symbol.type ≠ SymType.DOT then do
            display_error fuel ParserC.NO_DOT true
            pure (none : Option (Option PyVal))
          else do
            pullPM
            let st3 ← getPS
            (if ! (match st3.symbol.id with
                   | some v => st3.devices.dtype_output_ids.contains v
                   | none => false) then
              display_error fuel ParserC.INVALID_PORT true
             else pure ())
            let st4 ← getPS
            pullPM
            pure (some st4.symbol.id)
        else do
          pullPM
          pure (some (none : Option PyVal)))
    let st5 ← getPS
    if st5.symbol.id = some (PyVal.int Scanner.CONNECT_ID) then do
      pullPM
      let st6 ← getPS
      match Devices.get_device st6.devices st6.symbol.id with
      | none => display_error fuel ParserC.INVALID_DEVICE_NAME true
      | some second_device => do
        pullPM
        let st7 ← getPS
        if st7.symbol.type = SymType.DOT then do
          pullPM
          let st8 ← getPS
          if st8.symbol.type = SymType.NAME then do
            let second_device_port := st8.symbol.id
            pullPM
            let st9 ← getPS
            if st9.symbol.type ≠ SymType.SEMICOLON then
              display_error fuel ParserC.NO_SEMICOLON true
            else do
              (if st9.error_count = 0 then
                match first_device, fdp with
                | none, _ => throwPM "AttributeError: NoneType has no attribute device_id"
                | some _, none => throwPM "NameError: name first_device_port is not defined"
                | some fd, some p1 => do
                  let st10 ← getPS
                  let r := Network.make_connection st10.network st10.devices
                            fd.1 p1 second_device.1 second_device_port
                  let c := BuilderCall.connection fd.1 p1 second_device.1
                            second_device_port st10.error_count
                  setPS { st10 with network := r.2, calls := st10.calls ++ [c] }
                  if r.1 ≠ Network.NO_ERROR then display_error fuel r.1 false
                  else pure ()
               else pure ())
              pullPM
          else display_error fuel ParserC.INVALID_PORT true
        else display_error fuel ParserC.NO_DOT true
    else display_error fuel ParserC.NO_CONNECT_SYMBOL true
  else display_error fuel ParserC.INVALID_DEVICE_NAME true

/-- `Parser.signame` (parse.py lines 420-449): a signal is a name with an
optional dotted port.  A dotted port that is neither a flip-flop output nor
a flip-flop input makes the source evaluate `self.inputs`, an attribute the
parser never defines, raising `AttributeError` (line 434); the
`INVALID_PORT` arm below it is dead code. -/
def signame (fuel : Nat) (monitor_mode : Bool) :
    PM (Option (Option PyVal × Option PyVal)) := do
  let st ← getPS
  if st.symbol.type = SymType.NAME then do
    let device := st.symbol.id
    pullPM
    let st2 ← getPS
    if st2.symbol.type = SymType.DOT then do
      pullPM
      let st3 ← getPS
      if st3.symbol.type = SymType.NAME then do
        let port := st3.symbol.id
        pullPM
        let st4 ← getPS
        if (match port with
            | some v => st4.devices.dtype_output_ids.contains v
            | none => false) then
          pure (some (device, port))
        else if (match port with
            | some v => st4.devices.dtype_input_ids.contains v
            | none => false) then
          (if monitor_mode then pure (some (device, none)) else pure (some (device, port)))
        else throwPM "AttributeError: Parser object has no attribute inputs"
      else do
        display_error fuel ParserC.INVALID_DEVICE_NAME true
        pure none
    else pure (some (device, none))
  else do
    display_error fuel ParserC.INVALID_DEVICE_NAME false
    pure none

/-- The comma loop of `Parser.parse_monitor` (parse.py lines 390-397);
a failed `signame` returns from `parse_monitor` altogether, signalled here
by `none`. -/
def monitor_comma_loop (fuel : Nat) :
    Nat → List (Option PyVal × Option PyVal) →
    PM (Option (List (Option PyVal × Option PyVal)))
  | 0, _ => fun _ => PResA.div
  | n + 1, monitorList => do
    let st ← getPS
    if st.symbol.type = SymType.COMMA then do
      pullPM
      let mp ← signame fuel true
      match mp with
      | none => pure none
      | some p => monitor_comma_loop fuel n (monitorList ++ [p])
    else pure (some monitorList)

/-- The build loop of `parse_monitor` (parse.py lines 404-408): one
`make_monitor` per collected signal; a failing call is reported without
resynchronisation but — unlike the device and connection loops — does NOT
break, so the remaining signals are still forwarded. -/
def make_monitor_loop (fuel : Nat) :
    List (Option PyVal × Option PyVal) → PM Unit
  | [] => pure ()
  | i :: rest => do
    let st ← getPS
    let r := Monitors.make_monitor st.monitors st.devices i.1 i.2
    setPS { st with monitors := r.2,
                    calls := st.calls ++ [BuilderCall.monitor i.1 i.2 st.error_count] }
    (if r.1 ≠ Monitors.NO_ERROR then display_error fuel r.1 false else pure ())
    make_monitor_loop fuel rest

/-- `Parser.parse_monitor` (parse.py lines 379-409): collect the
comma-separated signal list, check the semicolon, and run the build loop
when no error has been recorded yet. -/
def parse_monitor (fuel : Nat) : PM Unit := do
  let st ← getPS
  if st.symbol.type = SymType.CURLY_CLOSE then pure ()
  else do
    let mp ← signame fuel true
    match mp with
    | none => pure ()
    | some monitorPoint => do
      let lst ← monitor_comma_loop fuel fuel [monitorPoint]
      match lst with
      | none => pure ()
      | some monitorList => do
        let st2 ← getPS
        (if st2.symbol.type ≠ SymType.SEMICOLON then
          display_error fuel ParserC.NO_SEMICOLON true
         else pullPM)
        let st3 ← getPS
        if st3.error_count = 0 then make_monitor_loop fuel monitorList else pure ()

/-- The statement loop of `Parser.parse_sections` (parse.py lines
182-195): parse statements of the section's kind until a `CURLY_CLOSE` is
the current symbol (the `EOF` arm of the source is unreachable, the
keyword argument always matching one of the three first arms). -/
def section_loop (fuel : Nat) : Nat → String → ParserState → PResA Unit
  | 0, _, _ => PResA.div
  | n + 1, kw, ps =>
    if ps.symbol.type = SymType.CURLY_CLOSE then PResA.ok () ps
    else
      match (if kw = "DEVICE" then parse_device fuel ps
             else if kw = "CONNECTION" then parse_connection fuel ps
             else if kw = "MONITOR" then parse_monitor fuel ps
             else PResA.ok () ps) with
      | PResA.ok _ ps1 => section_loop fuel n kw ps1
      | PResA.err e => PResA.err e
      | PResA.div => PResA.div

/-- `Parser.parse_sections` (parse.py lines 170-195): pull past the section
keyword, skip fillers, check the opening brace (reporting `NO_CURLY_OPEN`
with resynchronisation otherwise), then run the statement loop to the
closing brace. -/
def parse_sections (fuel : Nat) (kw : String) (ps : ParserState) : PResA Unit :=
  match pullPM ps with
  | PResA.ok _ ps1 =>
    match ignore_none fuel ps1 with
    | PResA.ok _ ps2 =>
      match (if ps2.symbol.type = SymType.CURLY_OPEN then pullPM ps2
             else display_error fuel ParserC.NO_CURLY_OPEN true ps2) with
      | PResA.ok _ ps3 => section_loop fuel fuel kw ps3
      | PResA.err e => PResA.err e
      | PResA.div => PResA.div
    | PResA.err e => PResA.err e
    | PResA.div => PResA.div
  | PResA.err e => PResA.err e
  | PResA.div => PResA.div

/-- The main loop of `Parser.parse_network` (parse.py lines 121-160): pull
a symbol (discarding whatever the current one is); a section keyword sets
its flag and parses the section; any other keyword is ignored; any
non-keyword symbol ends the loop, reporting `NO_SECTIONS` first when some
section flag is still unset. -/
def net_loop (fuel : Nat) : Nat → ParserState → PResA Unit
  | 0, _ => PResA.div
  | n + 1, ps =>
    if ps.symbol.type = SymType.EOF then PResA.ok () ps
    else
      match pullPM ps with
      | PResA.ok _ ps1 =>
        if ps1.symbol.type = SymType.KEYWORD then
          if ps1.symbol.id = some (PyVal.int Scanner.DEVICE_ID) then
            match parse_sections fuel "DEVICE" { ps1 with device_section := true } with
            | PResA.ok _ ps2 => net_loop fuel n ps2
            | PResA.err e => PResA.err e
            | PResA.div => PResA.div
          else if ps1.symbol.id = some (PyVal.int Scanner.CONNECTION_ID) then
            match parse_sections fuel "CONNECTION" { ps1 with connection_section := true } with
            | PResA.ok _ ps2 => net_loop fuel n ps2
            | PResA.err e => PResA.err e
            | PResA.div => PResA.div
          else if ps1.symbol.id = some (PyVal.int Scanner.MONITOR_ID) then
            match parse_sections fuel "MONITOR" { ps1 with monitor_section := true } with
            | PResA.ok _ ps2 => net_loop fuel n ps2
            | PResA.err e => PResA.err e
            | PResA.div => PResA.div
          else net_loop fuel n ps1
        else
          if ps1.device_section && ps1.connection_section && ps1.monitor_section then
            PResA.ok () ps1
          else display_error fuel ParserC.NO_SECTIONS true ps1
      | PResA.err e => PResA.err e
      | PResA.div => PResA.div

/-- `Parser.parse_network` (parse.py lines 113-168): report `NO_SECTIONS`
when the initial symbol is already `EOF`, run the main loop, and return
`True` exactly when `error_count == 0` — and Python's implicit `None`
(embedded as `none`) otherwise, there being no `return False`. -/
def parse_network (fuel : Nat) (ps : ParserState) : PResA (Option Bool) :=
  match (if ps.symbol.type = SymType.EOF then
          display_error fuel ParserC.NO_SECTIONS true ps
         else PResA.ok () ps) with
  | PResA.ok _ ps1 =>
    match net_loop fuel fuel ps1 with
    | PResA.ok _ ps2 =>
      PResA.ok (if ps2.error_count = 0 then some true else none) ps2
    | PResA.err e => PResA.err e
    | PResA.div => PResA.div
  | PResA.err e => PResA.err e
  | PResA.div => PResA.div

/- ===================== Pipeline construction ===================== -/

/-- The construction sequence of the repository's tests (`start_up` in
test_parse.py): a fresh `Names`, the string-mode `Scanner` (interning the
keywords), then the spec-modelled `Devices` (interning its kind and port
names into the same shared table), `Network`, `Monitors`, and the `Parser`
fields before the constructor's first `get_symbol` pull. -/
def mkPipeline (input : String) : ParserState :=
  let scan0 := Scanner.mkScanner input
  let dv := Devices.devicesStart scan0.names
  { scan := { scan0 with names := dv.2 },
    symbol := { type := SymType.NONE, id := none, line_number := 0, position := 0 },
    devices := dv.1,
    network := { connections := [] },
    monitors := { monitored := [] },
    error_count := 0,
    device_section := false,
    connection_section := false,
    monitor_section := false,
    calls := [], printed := [] }

/-- `Parser.__init__`'s eager `self.symbol = self.scanner.get_symbol()`
(parse.py line 49) followed by `parse_network`: the whole run of the
front end over `input`. -/
def parseRun (input : String) (fuel : Nat) : PResA (Option Bool) :=
  match pullPM (mkPipeline input) with
  | PResA.ok _ ps => parse_network fuel ps
  | PResA.err e => PResA.err e
  | PResA.div => PResA.div

/-- The final parser state of a completed run. -/
def runState (input : String) (fuel : Nat) : Option ParserState :=
  match parseRun input fuel with
  | PResA.ok _ ps => some ps
  | _ => none

/-- The value returned by `parse_network` in a completed run (`some true`
for Python `True`, `none` for Python `None`). -/
def runRet (input : String) (fuel : Nat) : Option (Option Bool) :=
  match parseRun input fuel with
  | PResA.ok r _ => some r
  | _ => none

/- ===================== Scanner lemmas ===================== -/

namespace Scanner

theorem advance_names (s : ScanState) : (advance s).names = s.names := by
  unfold advance
  split
  · dsimp only
    split <;> rfl
  · rfl

theorem advance_input (s : ScanState) : (advance s).input = s.input := by
  unfold advance
  split
  · dsimp only
    split <;> rfl
  · rfl

theorem bump_names (s : ScanState) : (bump s).names = s.names := rfl

theorem skip_aux_names (n : Nat) (s : ScanState) : (skip_aux n s).names = s.names := by
  induction n generalizing s with
  | zero => rfl
  | succ n ih =>
    unfold skip_aux
    split
    · rw [ih, advance_names]
    · rfl

theorem skip_aux_input (n : Nat) (s : ScanState) : (skip_aux n s).input = s.input := by
  induction n generalizing s with
  | zero => rfl
  | succ n ih =>
    unfold skip_aux
    split
    · rw [ih, advance_input]
    · rfl

theorem skip_spaces_names (s : ScanState) : (skip_spaces s).names = s.names :=
  skip_aux_names _ s

theorem name_aux_names (n : Nat) (acc : String) (s : ScanState) :
    ((name_aux n acc s).2).names = s.names := by
  induction n generalizing acc s with
  | zero => rfl
  | succ n ih =>
    unfold name_aux
    dsimp only
    split
    · split
      · rw [ih, advance_names]
      · simp only [advance_names]
    · simp only [advance_names]

theorem get_name_names (c : Char) (s : ScanState) : ((get_name c s).2).names = s.names :=
  name_aux_names _ _ s

theorem number_aux_names (n : Nat) (acc : String) (s : ScanState) :
    ((number_aux n acc s).2).names = s.names := by
  induction n generalizing acc s with
  | zero => rfl
  | succ n ih =>
    unfold number_aux
    dsimp only
    split
    · split
      · rw [ih, advance_names]
      · simp only [advance_names]
    · simp only [advance_names]

theorem line_aux_names (n : Nat) (s s1 : ScanState) (h : line_aux n s = some s1) :
    s1.names = s.names := by
  induction n generalizing s with
  | zero => exact absurd h (by simp [line_aux])
  | succ n ih =>
    unfold line_aux at h
    split at h
    · cases h; rfl
    · split at h
      · cases h
      · rw [ih _ h, advance_names]

/-- The single-string case of the `Names.lookup` loop body. -/
theorem lookup_loop_single (ns : List String) (x : String) :
    Names.lookup_loop ns [x] =
      ([(if ns.contains x then ns else ns ++ [x]).indexOf x],
       if ns.contains x then ns else ns ++ [x]) := by
  simp [Names.lookup_loop]

/-- The maximal alphabetic-started word at the cursor after whitespace
skipping, when there is one: the word whose filler- or keyword-ness the
name branch of `get_symbol` tests. -/
def scanned_word (s : ScanState) : Option String :=
  let s1 := skip_spaces s
  match s1.current_character with
  | some c => if c.isAlpha then some (get_name c s1).1 else none
  | none => none

theorem advance_fields (s : ScanState) (h : s.character_count < s.input.length) :
    (advance s).character_count = s.character_count + 1 ∧
    (advance s).current_character = some (s.input.get ⟨s.character_count, h⟩) ∧
    (advance s).input = s.input := by
  unfold advance
  rw [dif_pos h]
  dsimp only
  split <;> exact ⟨rfl, rfl, rfl⟩

theorem advance_none (s : ScanState) (h : ¬ s.character_count < s.input.length) :
    (advance s).current_character = none := by
  unfold advance
  rw [dif_neg h]

theorem advance_loaded (s : ScanState) (c : Char)
    (h : (advance s).current_character = some c) :
    1 ≤ (advance s).character_count ∧
    (advance s).input.get? ((advance s).character_count - 1) = some c := by
  by_cases hlt : s.character_count < s.input.length
  · obtain ⟨h1, h2, h3⟩ := advance_fields s hlt
    rw [h2] at h
    refine ⟨by omega, ?_⟩
    rw [h1, h3, Nat.add_sub_cancel, List.get?_eq_get hlt, ← h]
  · rw [advance_none s hlt] at h
    cases h

theorem advance_measure_lt (s : ScanState) (h : s.character_count < s.input.length) :
    scanMeasure (advance s) < scanMeasure s := by
  obtain ⟨h1, h2, h3⟩ := advance_fields s h
  unfold scanMeasure
  rw [h1, h2, h3]
  simp only [Option.isSome]
  split <;> omega

/-- A newline is loaded or still ahead of the cursor. -/
def lineReach (s : ScanState) : Prop :=
  s.current_character = some '\n' ∨
    ∃ j, s.character_count ≤ j ∧ s.input.get? j = some '\n'

theorem line_aux_some (n : Nat) (s : ScanState) (hm : scanMeasure s < n)
    (hr : lineReach s) : line_aux n s ≠ none := by
  induction n generalizing s with
  | zero => omega
  | succ n ih =>
    unfold line_aux
    by_cases h1 : s.current_character = some '\n'
    · rw [if_pos h1]
      exact fun hf => Option.noConfusion hf
    · rw [if_neg h1]
      obtain ⟨j, hj, hget⟩ := hr.resolve_left h1
      have hjlt : j < s.input.length := (List.get?_eq_some.mp hget).1
      have hlt : s.character_count < s.input.length := Nat.lt_of_le_of_lt hj hjlt
      rw [if_neg (by intro ⟨ha, _⟩; omega)]
      obtain ⟨h1', h2', h3'⟩ := advance_fields s hlt
      refine ih (advance s) ?_ ?_
      · have := advance_measure_lt s hlt
        omega
      · rcases Nat.eq_or_lt_of_le hj with heq | hltj
        · left
          subst heq
          rw [h2']
          rw [List.get?_eq_get hjlt] at hget
          exact hget
        · right
          exact ⟨j, by omega, by rw [h3']; exact hget⟩

theorem skip_aux_loaded (n : Nat) (s : ScanState) :
    skip_aux n s = s ∨
    ((skip_aux n s).input = s.input ∧
      ∀ c, (skip_aux n s).current_character = some c →
        1 ≤ (skip_aux n s).character_count ∧
        (skip_aux n s).input.get? ((skip_aux n s).character_count - 1) = some c) := by
  induction n generalizing s with
  | zero => exact Or.inl rfl
  | succ n ih =>
    unfold skip_aux
    by_cases hsp : isspace_c s.current_character = true
    · rw [if_pos hsp]
      rcases ih (advance s) with heq | ⟨hin, hp⟩
      · rw [heq]
        exact Or.inr ⟨advance_input s, fun c hc => advance_loaded s c hc⟩
      · exact Or.inr ⟨hin.trans (advance_input s), hp⟩
    · rw [if_neg hsp]
      exact Or.inl rfl

theorem skip_spaces_loaded (s : ScanState) :
    skip_spaces s = s ∨
    ((skip_spaces s).input = s.input ∧
      ∀ c, (skip_spaces s).current_character = some c →
        1 ≤ (skip_spaces s).character_count ∧
        (skip_spaces s).input.get? ((skip_spaces s).character_count - 1) = some c) :=
  skip_aux_loaded _ s

theorem bulk_entry (s : ScanState) (h : s.current_character = some '/') :
    bulk_aux 2 s = BulkRes.done := by
  unfold bulk_aux
  rw [h]
  dsimp only
  rw [if_pos rfl]
  unfold bulk_aux
  rw [h]
  dsimp only
  rw [if_pos rfl]
  rfl

/-- Claim C10: `Scanner.get_symbol` terminates on every finite input in
which each `#` line comment is followed by a newline character before
end-of-input — both for a `#` still in the buffer (first hypothesis) and
for one already loaded as the current character (second hypothesis); under
these hypotheses no scanning loop diverges, so the call returns a symbol
or raises, and never yields `div`. -/
theorem C10_get_symbol_terminates :
    ∀ s : ScanState,
    (∀ i, i < s.input.length → s.input.get? i = some '#' →
      ∃ j, j < s.input.length ∧ i < j ∧ s.input.get? j = some '\n') →
    (s.current_character = some '#' →
      ∃ j, j < s.input.length ∧ s.character_count ≤ j ∧ s.input.get? j = some '\n') →
    get_symbol s ≠ ScanRes.div := by
  intro s H1 H2 hdiv
  unfold get_symbol at hdiv
  dsimp only at hdiv
  cases hc : (skip_spaces s).current_character with
  | none =>
    rw [hc] at hdiv
    exact ScanRes.noConfusion hdiv
  | some c =>
    rw [hc] at hdiv
    dsimp only at hdiv
    by_cases halpha : c.isAlpha = true
    · rw [if_pos halpha] at hdiv
      by_cases hfill : ignoreList.contains (get_name c (skip_spaces s)).1 = true
      · rw [if_pos hfill] at hdiv; exact ScanRes.noConfusion hdiv
      · rw [if_neg hfill] at hdiv
        by_cases hkw : keywordsList.contains (get_name c (skip_spaces s)).1 = true
        · rw [if_pos hkw] at hdiv
          cases hq : Names.query ⟨0, (get_name c (skip_spaces s)).2.names⟩ (get_name c (skip_spaces s)).1 with
          | error e => rw [hq] at hdiv; exact ScanRes.noConfusion hdiv
          | ok r => rw [hq] at hdiv; exact ScanRes.noConfusion hdiv
        · rw [if_neg hkw] at hdiv
          exact ScanRes.noConfusion hdiv
    · rw [if_neg halpha] at hdiv
      by_cases hdig : c.isDigit = true
      · rw [if_pos hdig] at hdiv; exact ScanRes.noConfusion hdiv
      · rw [if_neg hdig] at hdiv
        by_cases h1 : c = ','
        · rw [if_pos h1] at hdiv; exact ScanRes.noConfusion hdiv
        · rw [if_neg h1] at hdiv
          by_cases h2 : c = '\x7b'
          · rw [if_pos h2] at hdiv; exact ScanRes.noConfusion hdiv
          · rw [if_neg h2] at hdiv
            by_cases h3 : c = '\x7d'
            · rw [if_pos h3] at hdiv; exact ScanRes.noConfusion hdiv
            · rw [if_neg h3] at hdiv
              by_cases h4 : c = ';'
              · rw [if_pos h4] at hdiv; exact ScanRes.noConfusion hdiv
              · rw [if_neg h4] at hdiv
                by_cases h5 : c = '.'
                · rw [if_pos h5] at hdiv; exact ScanRes.noConfusion hdiv
                · rw [if_neg h5] at hdiv
                  by_cases h6 : c = '#'
                  · rw [if_pos h6] at hdiv
                    -- the line-comment loop: a newline is reachable, so it terminates
                    subst h6
                    have hreach : ∃ j, (skip_spaces s).character_count ≤ j ∧
                        (skip_spaces s).input.get? j = some '\n' := by
                      rcases skip_spaces_loaded s with heq | ⟨hin, hp⟩
                      · have hc' : s.current_character = some '#' := by
                          rw [← heq]; exact hc
                        obtain ⟨j, _, hj2, hj3⟩ := H2 hc'
                        refine ⟨j, ?_, ?_⟩
                        · rw [heq]; exact hj2
                        · rw [heq]; exact hj3
                      · obtain ⟨hp1, hp2⟩ := hp _ hc
                        have hi : s.input.get? ((skip_spaces s).character_count - 1) = some '#' := by
                          rw [← hin]; exact hp2
                        have hilt : (skip_spaces s).character_count - 1 < s.input.length :=
                          (List.get?_eq_some.mp hi).1
                        obtain ⟨j, hj1, hj2, hj3⟩ := H1 _ hilt hi
                        exact ⟨j, by omega, by rw [hin]; exact hj3⟩
                    obtain ⟨j, hj, hget⟩ := hreach
                    have hjlt : j < (skip_spaces s).input.length := (List.get?_eq_some.mp hget).1
                    have hlt : (skip_spaces s).character_count < (skip_spaces s).input.length :=
                      Nat.lt_of_le_of_lt hj hjlt
                    obtain ⟨ha1, ha2, ha3⟩ := advance_fields (skip_spaces s) hlt
                    have hreach' : lineReach (advance (skip_spaces s)) := by
                      rcases Nat.eq_or_lt_of_le hj with heq | hltj
                      · left
                        subst heq
                        rw [ha2]
                        rw [List.get?_eq_get hjlt] at hget
                        exact hget
                      · right
                        exact ⟨j, by omega, by rw [ha3]; exact hget⟩
                    cases hline : line_aux (scanMeasure (advance (skip_spaces s)) + 1)
                        (advance (skip_spaces s)) with
                    | some s3 => rw [hline] at hdiv; exact ScanRes.noConfusion hdiv
                    | none =>
                      exact line_aux_some _ _ (Nat.lt_succ_self _) hreach' hline
                  · rw [if_neg h6] at hdiv
                    by_cases h7 : c = '/'
                    · rw [if_pos h7] at hdiv
                      by_cases h8 : (advance (skip_spaces s)).current_character = some '/'
                      · rw [if_pos h8] at hdiv
                        rw [bulk_entry _ h8] at hdiv
                        exact ScanRes.noConfusion hdiv
                      · rw [if_neg h8] at hdiv
                        exact ScanRes.noConfusion hdiv
                    · rw [if_neg h7] at hdiv
                      exact ScanRes.noConfusion hdiv

/-- Claim C9: scanning a filler word returns a symbol of kind `NONE`
(first conjunct) and leaves the name table unchanged (second conjunct);
more generally a `get_symbol` call leaves the name table unchanged unless
it returns a `NAME` symbol for a string not yet present, which it appends
(third conjunct) — so the number of entries added over a scan is the
number of distinct new real names, independent of filler occurrences. -/
theorem C9_filler_words_not_interned :
    ∀ s sym s2, get_symbol s = ScanRes.ok sym s2 →
    ((∃ w, scanned_word s = some w ∧ ignoreList.contains w = true) →
        sym.type = SymType.NONE) ∧
    (sym.type = SymType.NONE → s2.names = s.names) ∧
    (s2.names = s.names ∨ (sym.type = SymType.NAME ∧
        ∃ w, s.names.contains w = false ∧ s2.names = s.names ++ [w])) := by
  intro s sym s2 h
  have hskip : (skip_spaces s).names = s.names := skip_spaces_names s
  unfold get_symbol at h
  dsimp only at h
  cases hc : (skip_spaces s).current_character with
  | none =>
    rw [hc] at h
    dsimp only at h
    cases h
    refine ⟨?_, fun _ => (bump_names _).trans hskip, Or.inl ((bump_names _).trans hskip)⟩
    intro ⟨w, hw, _⟩
    unfold scanned_word at hw
    dsimp only at hw
    rw [hc] at hw
    cases hw
  | some c =>
    rw [hc] at h
    dsimp only at h
    have hword : ∀ w, scanned_word s = some w → c.isAlpha = true →
        w = (get_name c (skip_spaces s)).1 := by
      intro w hw ha
      unfold scanned_word at hw
      dsimp only at hw
      rw [hc] at hw
      dsimp only at hw
      rw [if_pos ha] at hw
      exact (Option.some.injEq _ _).mp hw.symm
    have hnoword : ¬ c.isAlpha = true → ∀ w, scanned_word s = some w → False := by
      intro ha w hw
      unfold scanned_word at hw
      dsimp only at hw
      rw [hc] at hw
      dsimp only at hw
      rw [if_neg ha] at hw
      cases hw
    have hnames1 : ((get_name c (skip_spaces s)).2).names = s.names :=
      (get_name_names c _).trans hskip
    by_cases halpha : c.isAlpha = true
    · rw [if_pos halpha] at h
      by_cases hfill : ignoreList.contains (get_name c (skip_spaces s)).1 = true
      · rw [if_pos hfill] at h
        cases h
        exact ⟨fun _ => rfl, fun _ => (bump_names _).trans hnames1,
          Or.inl ((bump_names _).trans hnames1)⟩
      · rw [if_neg hfill] at h
        have hconj1 : (∃ w, scanned_word s = some w ∧ ignoreList.contains w = true) →
            sym.type = SymType.NONE := by
          intro ⟨w, hw, hcont⟩
          rw [hword w hw halpha] at hcont
          exact absurd hcont hfill
        by_cases hkw : keywordsList.contains (get_name c (skip_spaces s)).1 = true
        · rw [if_pos hkw] at h
          cases hq : Names.query ⟨0, (get_name c (skip_spaces s)).2.names⟩ (get_name c (skip_spaces s)).1 with
          | error e => rw [hq] at h; exact ScanRes.noConfusion h
          | ok r =>
            rw [hq] at h
            dsimp only at h
            cases h
            exact ⟨hconj1, fun _ => (bump_names _).trans hnames1,
              Or.inl ((bump_names _).trans hnames1)⟩
        · rw [if_neg hkw] at h
          rw [lookup_loop_single] at h
          cases h
          refine ⟨hconj1, fun hn => SymType.noConfusion hn, ?_⟩
          by_cases hmem :
              ((get_name c (skip_spaces s)).2).names.contains (get_name c (skip_spaces s)).1 = true
          · left
            show (bump _).names = s.names
            rw [bump_names]
            dsimp only
            rw [if_pos hmem]
            exact hnames1
          · right
            refine ⟨rfl, (get_name c (skip_spaces s)).1, ?_, ?_⟩
            · rw [← hnames1]
              exact Bool.not_eq_true _ ▸ hmem
            · show (bump _).names = s.names ++ _
              rw [bump_names]
              dsimp only
              rw [if_neg hmem, hnames1]
    · rw [if_neg halpha] at h
      have habs : (∃ w, scanned_word s = some w ∧ ignoreList.contains w = true) →
          sym.type = SymType.NONE := by
        intro ⟨w, hw, _⟩
        exact absurd (hnoword halpha w hw) (fun f => f)
      have hadv : ((advance (skip_spaces s))).names = s.names :=
        (advance_names _).trans hskip
      by_cases hdig : c.isDigit = true
      · rw [if_pos hdig] at h
        cases h
        exact ⟨habs, fun _ => (bump_names _).trans ((number_aux_names _ _ _).trans hskip),
          Or.inl ((bump_names _).trans ((number_aux_names _ _ _).trans hskip))⟩
      · rw [if_neg hdig] at h
        by_cases h1 : c = ','
        · rw [if_pos h1] at h
          cases h
          exact ⟨habs, fun _ => (bump_names _).trans hadv, Or.inl ((bump_names _).trans hadv)⟩
        · rw [if_neg h1] at h
          by_cases h2 : c = '\x7b'
          · rw [if_pos h2] at h
            cases h
            exact ⟨habs, fun _ => (bump_names _).trans hadv, Or.inl ((bump_names _).trans hadv)⟩
          · rw [if_neg h2] at h
            by_cases h3 : c = '\x7d'
            · rw [if_pos h3] at h
              cases h
              exact ⟨habs, fun _ => (bump_names _).trans hadv, Or.inl ((bump_names _).trans hadv)⟩
            · rw [if_neg h3] at h
              by_cases h4 : c = ';'
              · rw [if_pos h4] at h
                cases h
                exact ⟨habs, fun _ => (bump_names _).trans hadv, Or.inl ((bump_names _).trans hadv)⟩
              · rw [if_neg h4] at h
                by_cases h5 : c = '.'
                · rw [if_pos h5] at h
                  cases h
                  exact ⟨habs, fun _ => (bump_names _).trans hadv, Or.inl ((bump_names _).trans hadv)⟩
                · rw [if_neg h5] at h
                  by_cases h6 : c = '#'
                  · rw [if_pos h6] at h
                    cases hline : line_aux (scanMeasure (advance (skip_spaces s)) + 1)
                        (advance (skip_spaces s)) with
                    | none => rw [hline] at h; exact ScanRes.noConfusion h
                    | some s3 =>
                      rw [hline] at h
                      dsimp only at h
                      cases h
                      have hn3 : s3.names = s.names := (line_aux_names _ _ _ hline).trans hadv
                      exact ⟨habs, fun _ => (bump_names _).trans hn3,
                        Or.inl ((bump_names _).trans hn3)⟩
                  · rw [if_neg h6] at h
                    by_cases h7 : c = '/'
                    · rw [if_pos h7] at h
                      by_cases h8 : (advance (skip_spaces s)).current_character = some '/'
                      · rw [if_pos h8] at h
                        cases hb : bulk_aux 2 (advance (skip_spaces s)) with
                        | done =>
                          rw [hb] at h
                          dsimp only at h
                          cases h
                          have hn4 : ((advance (advance (skip_spaces s)))).names = s.names :=
                            (advance_names _).trans hadv
                          exact ⟨habs, fun _ => (bump_names _).trans hn4,
                            Or.inl ((bump_names _).trans hn4)⟩
                        | eofErr => rw [hb] at h; exact ScanRes.noConfusion h
                        | div => rw [hb] at h; exact ScanRes.noConfusion h
                      · rw [if_neg h8] at h
                        cases h
                        exact ⟨habs, fun _ => (bump_names _).trans hadv,
                          Or.inl ((bump_names _).trans hadv)⟩
                    · rw [if_neg h7] at h
                      exact ScanRes.noConfusion h

end Scanner

/- ======= Parser lemmas and parser-level claims ======= -/

theorem pullPM_frame (ps : ParserState) (a : Unit) (ps1 : ParserState)
    (h : pullPM ps = PResA.ok a ps1) :
    ps1.error_count = ps.error_count ∧ ps1.device_section = ps.device_section ∧
    ps1.connection_section = ps.connection_section ∧
    ps1.monitor_section = ps.monitor_section ∧ ps1.printed = ps.printed ∧
    ps1.calls = ps.calls := by
  unfold pullPM at h
  cases hg : Scanner.get_symbol ps.scan with
  | ok sym s1 =>
    rw [hg] at h
    cases h
    exact ⟨rfl, rfl, rfl, rfl, rfl, rfl⟩
  | err e => rw [hg] at h; exact PResA.noConfusion h
  | div => rw [hg] at h; exact PResA.noConfusion h

theorem skip_to_delim_props (fuel : Nat) (ps : ParserState) (a : Unit) (ps1 : ParserState)
    (h : skip_to_delim fuel ps = PResA.ok a ps1) :
    ps1.error_count = ps.error_count ∧ ps1.device_section = ps.device_section ∧
    ps1.connection_section = ps.connection_section ∧
    ps1.monitor_section = ps.monitor_section ∧ ps1.printed = ps.printed ∧
    ps1.calls = ps.calls ∧
    (ps1.symbol.type = SymType.SEMICOLON ∨ ps1.symbol.type = SymType.CURLY_CLOSE ∨
      ps1.symbol.type = SymType.EOF) := by
  induction fuel generalizing ps with
  | zero => exact PResA.noConfusion h
  | succ n ih =>
    unfold skip_to_delim at h
    by_cases hc : ps.symbol.type = SymType.SEMICOLON ∨ ps.symbol.type = SymType.CURLY_CLOSE ∨
        ps.symbol.type = SymType.EOF
    · rw [if_pos hc] at h
      cases h
      exact ⟨rfl, rfl, rfl, rfl, rfl, rfl, hc⟩
    · rw [if_neg hc] at h
      cases hp : pullPM ps with
      | ok b psn =>
        rw [hp] at h
        obtain ⟨e1, e2, e3, e4, e5, e6⟩ := pullPM_frame ps b psn hp
        obtain ⟨f1, f2, f3, f4, f5, f6, f7⟩ := ih psn h
        exact ⟨f1.trans e1, f2.trans e2, f3.trans e3, f4.trans e4, f5.trans e5,
          f6.trans e6, f7⟩
      | err e => rw [hp] at h; exact PResA.noConfusion h
      | div => rw [hp] at h; exact PResA.noConfusion h

theorem skip_to_delim_stay (fuel : Nat) (ps : ParserState) (a : Unit) (ps1 : ParserState)
    (hend : ps.symbol.type = SymType.SEMICOLON ∨ ps.symbol.type = SymType.CURLY_CLOSE ∨
      ps.symbol.type = SymType.EOF)
    (h : skip_to_delim fuel ps = PResA.ok a ps1) : ps1 = ps := by
  cases fuel with
  | zero => exact PResA.noConfusion h
  | succ n =>
    unfold skip_to_delim at h
    rw [if_pos hend] at h
    cases h
    rfl

theorem display_error_ok (fuel e : Nat) (sk : Bool) (ps : ParserState) (a : Unit)
    (ps1 : ParserState) (h : display_error fuel e sk ps = PResA.ok a ps1) :
    ps1.error_count = ps.error_count + 1 ∧ ps1.device_section = ps.device_section ∧
    ps1.connection_section = ps.connection_section ∧
    ps1.monitor_section = ps.monitor_section ∧ ps1.calls = ps.calls ∧
    (∃ msg, ParserC.errorDict e = some msg ∧
      ps1.printed = ps.printed ++ [(msg, ps.symbol.position)]) := by
  unfold display_error at h
  cases hd : ParserC.errorDict e with
  | none => rw [hd] at h; exact PResA.noConfusion h
  | some msg =>
    rw [hd] at h
    dsimp only at h
    by_cases hsk : sk = true
    · rw [hsk] at h
      rw [if_neg (not_not_intro rfl)] at h
      cases hs : skip_to_delim fuel
          { ps with error_count := ps.error_count + 1,
                    printed := ps.printed ++ [(msg, ps.symbol.position)] } with
      | ok b ps3 =>
        rw [hs] at h
        dsimp only at h
        obtain ⟨f1, f2, f3, f4, f5, f6, f7⟩ := skip_to_delim_props fuel _ b ps3 hs
        dsimp only at f1 f2 f3 f4 f5 f6
        by_cases hsemi : ps3.symbol.type = SymType.SEMICOLON
        · rw [if_pos hsemi] at h
          obtain ⟨g1, g2, g3, g4, g5, g6⟩ := pullPM_frame ps3 a ps1 h
          exact ⟨g1.trans f1, g2.trans f2, g3.trans f3, g4.trans f4, g6.trans f6,
            msg, rfl, g5.trans f5⟩
        · rw [if_neg hsemi] at h
          cases h
          exact ⟨f1, f2, f3, f4, f6, msg, rfl, f5⟩
      | err e2 => rw [hs] at h; exact PResA.noConfusion h
      | div => rw [hs] at h; exact PResA.noConfusion h
    · have hskf : sk = false := Bool.not_eq_true sk ▸ hsk
      rw [hskf] at h
      rw [if_pos Bool.false_ne_true] at h
      cases h
      exact ⟨rfl, rfl, rfl, rfl, rfl, msg, rfl, rfl⟩


theorem display_error_eof (fuel e : Nat) (ps : ParserState) (a : Unit) (ps1 : ParserState)
    (hE : ps.symbol.type = SymType.EOF)
    (h : display_error fuel e true ps = PResA.ok a ps1) :
    ps1.symbol.type = SymType.EOF ∧ ps1.error_count = ps.error_count + 1 := by
  unfold display_error at h
  cases hd : ParserC.errorDict e with
  | none => rw [hd] at h; exact PResA.noConfusion h
  | some msg =>
    rw [hd] at h
    dsimp only at h
    rw [if_neg (not_not_intro rfl)] at h
    cases hs : skip_to_delim fuel
        { ps with error_count := ps.error_count + 1,
                  printed := ps.printed ++ [(msg, ps.symbol.position)] } with
    | ok b ps3 =>
      rw [hs] at h
      dsimp only at h
      have hstay := skip_to_delim_stay fuel
        { ps with error_count := ps.error_count + 1,
                  printed := ps.printed ++ [(msg, ps.symbol.position)] } b ps3
        (Or.inr (Or.inr hE)) hs
      subst hstay
      rw [if_neg (show ¬ ps.symbol.type = SymType.SEMICOLON by
        rw [hE]; exact fun hcon => SymType.noConfusion hcon)] at h
      cases h
      exact ⟨hE, rfl⟩
    | err e2 => rw [hs] at h; exact PResA.noConfusion h
    | div => rw [hs] at h; exact PResA.noConfusion h

theorem net_loop_eof (fuel n : Nat) (ps : ParserState) (a : Unit) (ps2 : ParserState)
    (hE : ps.symbol.type = SymType.EOF) (h : net_loop fuel n ps = PResA.ok a ps2) :
    ps2 = ps := by
  cases n with
  | zero => exact PResA.noConfusion h
  | succ n =>
    unfold net_loop at h
    rw [if_pos hE] at h
    cases h
    rfl

theorem section_loop_close (fuel n : Nat) (kw : String) (ps : ParserState) (a : Unit)
    (ps1 : ParserState) (h : section_loop fuel n kw ps = PResA.ok a ps1) :
    ps1.symbol.type = SymType.CURLY_CLOSE := by
  induction n generalizing ps with
  | zero => exact PResA.noConfusion h
  | succ n ih =>
    unfold section_loop at h
    by_cases hc : ps.symbol.type = SymType.CURLY_CLOSE
    · rw [if_pos hc] at h
      cases h
      exact hc
    · rw [if_neg hc] at h
      cases hb : (if kw = "DEVICE" then parse_device fuel ps
             else if kw = "CONNECTION" then parse_connection fuel ps
             else if kw = "MONITOR" then parse_monitor fuel ps
             else PResA.ok () ps) with
      | ok b psn => rw [hb] at h; exact ih psn h
      | err e => rw [hb] at h; exact PResA.noConfusion h
      | div => rw [hb] at h; exact PResA.noConfusion h

theorem parse_sections_close (fuel : Nat) (kw : String) (ps : ParserState) (a : Unit)
    (ps1 : ParserState) (h : parse_sections fuel kw ps = PResA.ok a ps1) :
    ps1.symbol.type = SymType.CURLY_CLOSE := by
  unfold parse_sections at h
  cases hp : pullPM ps with
  | ok b psa =>
    rw [hp] at h
    dsimp only at h
    cases hi : ignore_none fuel psa with
    | ok c psb =>
      rw [hi] at h
      dsimp only at h
      cases ho : (if psb.symbol.type = SymType.CURLY_OPEN then pullPM psb
             else display_error fuel ParserC.NO_CURLY_OPEN true psb) with
      | ok d psc =>
        rw [ho] at h
        dsimp only at h
        exact section_loop_close fuel fuel kw psc a ps1 h
      | err e => rw [ho] at h; exact PResA.noConfusion h
      | div => rw [ho] at h; exact PResA.noConfusion h
    | err e => rw [hi] at h; exact PResA.noConfusion h
    | div => rw [hi] at h; exact PResA.noConfusion h
  | err e => rw [hp] at h; exact PResA.noConfusion h
  | div => rw [hp] at h; exact PResA.noConfusion h


theorem net_loop_flags (n fuel : Nat) (ps : ParserState) (a : Unit) (ps2 : ParserState)
    (h : net_loop fuel n ps = PResA.ok a ps2) (hz : ps2.error_count = 0)
    (hinv : ps.symbol.type = SymType.EOF → ps.error_count ≠ 0) :
    ps2.device_section = true ∧ ps2.connection_section = true ∧
    ps2.monitor_section = true := by
  induction n generalizing ps with
  | zero => exact PResA.noConfusion h
  | succ n ih =>
    unfold net_loop at h
    by_cases hE : ps.symbol.type = SymType.EOF
    · rw [if_pos hE] at h
      cases h
      exact absurd hz (hinv hE)
    · rw [if_neg hE] at h
      cases hp : pullPM ps with
      | ok b ps1 =>
        rw [hp] at h
        dsimp only at h
        by_cases hkw : ps1.symbol.type = SymType.KEYWORD
        · rw [if_pos hkw] at h
          have hnotEOF : ps1.symbol.type = SymType.EOF → ps1.error_count ≠ 0 := by
            rw [hkw]; exact fun hcon => SymType.noConfusion hcon
          by_cases hd : ps1.symbol.id = some (PyVal.int Scanner.DEVICE_ID)
          · rw [if_pos hd] at h
            cases hs : parse_sections fuel "DEVICE" { ps1 with device_section := true } with
            | ok c psn =>
              rw [hs] at h
              dsimp only at h
              have hcl := parse_sections_close fuel "DEVICE" _ c psn hs
              exact ih psn h (by rw [hcl]; exact fun hcon => SymType.noConfusion hcon)
            | err e => rw [hs] at h; exact PResA.noConfusion h
            | div => rw [hs] at h; exact PResA.noConfusion h
          · rw [if_neg hd] at h
            by_cases hcn : ps1.symbol.id = some (PyVal.int Scanner.CONNECTION_ID)
            · rw [if_pos hcn] at h
              cases hs : parse_sections fuel "CONNECTION"
                  { ps1 with connection_section := true } with
              | ok c psn =>
                rw [hs] at h
                dsimp only at h
                have hcl := parse_sections_close fuel "CONNECTION" _ c psn hs
                exact ih psn h (by rw [hcl]; exact fun hcon => SymType.noConfusion hcon)
              | err e => rw [hs] at h; exact PResA.noConfusion h
              | div => rw [hs] at h; exact PResA.noConfusion h
            · rw [if_neg hcn] at h
              by_cases hm : ps1.symbol.id = some (PyVal.int Scanner.MONITOR_ID)
              · rw [if_pos hm] at h
                cases hs : parse_sections fuel "MONITOR"
                    { ps1 with monitor_section := true } with
                | ok c psn =>
                  rw [hs] at h
                  dsimp only at h
                  have hcl := parse_sections_close fuel "MONITOR" _ c psn hs
                  exact ih psn h (by rw [hcl]; exact fun hcon => SymType.noConfusion hcon)
                | err e => rw [hs] at h; exact PResA.noConfusion h
                | div => rw [hs] at h; exact PResA.noConfusion h
              · rw [if_neg hm] at h
                exact ih ps1 h hnotEOF
        · rw [if_neg hkw] at h
          by_cases hfl : (ps1.device_section && ps1.connection_section &&
              ps1.monitor_section) = true
          · rw [if_pos hfl] at h
            cases h
            have := Bool.and_eq_true_iff.mp hfl
            have h2 := Bool.and_eq_true_iff.mp this.1
            exact ⟨h2.1, h2.2, this.2⟩
          · rw [if_neg hfl] at h
            obtain ⟨g1, _, _, _, _, _⟩ :=
              display_error_ok fuel ParserC.NO_SECTIONS true ps1 a ps2 h
            omega
      | err e => rw [hp] at h; exact PResA.noConfusion h
      | div => rw [hp] at h; exact PResA.noConfusion h

/-- Claim C3 (amended): `parse_network` returns `True` exactly when, at the
end of the pass, `error_count == 0` and all three section-seen flags are
true; when that fails it returns Python `None` (embedded `none`) rather
than `False` — the result is always `True` or `None`, never a false
boolean. -/
theorem C3_parse_network_success_iff :
    ∀ fuel ps r ps2, parse_network fuel ps = PResA.ok r ps2 →
    (r = some true ↔ (ps2.error_count = 0 ∧ ps2.device_section = true ∧
      ps2.connection_section = true ∧ ps2.monitor_section = true)) ∧
    (r = some true ∨ r = none) := by
  intro fuel ps r ps2 h
  unfold parse_network at h
  by_cases hE : ps.symbol.type = SymType.EOF
  · rw [if_pos hE] at h
    cases hd : display_error fuel ParserC.NO_SECTIONS true ps with
    | ok b ps1 =>
      rw [hd] at h
      dsimp only at h
      obtain ⟨hE1, hc1⟩ := display_error_eof fuel ParserC.NO_SECTIONS ps b ps1 hE hd
      cases hn : net_loop fuel fuel ps1 with
      | ok c psn =>
        rw [hn] at h
        dsimp only at h
        injection h with hr hps
        subst hr
        subst hps
        have heq := net_loop_eof fuel fuel ps1 c psn hE1 hn
        rw [heq, if_neg (by omega)]
        constructor
        · constructor
          · intro hcon; exact Option.noConfusion hcon
          · intro ⟨hcon, _⟩; omega
        · exact Or.inr rfl
      | err e => rw [hn] at h; exact PResA.noConfusion h
      | div => rw [hn] at h; exact PResA.noConfusion h
    | err e => rw [hd] at h; exact PResA.noConfusion h
    | div => rw [hd] at h; exact PResA.noConfusion h
  · rw [if_neg hE] at h
    dsimp only at h
    cases hn : net_loop fuel fuel ps with
    | ok c psn =>
      rw [hn] at h
      dsimp only at h
      injection h with hr hps
      subst hr
      subst hps
      by_cases hz : psn.error_count = 0
      · rw [if_pos hz]
        have hfl := net_loop_flags fuel fuel ps c psn hn hz (fun hcon => absurd hcon hE)
        constructor
        · simp only [hz, hfl.1, hfl.2.1, hfl.2.2, and_self, iff_true]
        · exact Or.inl rfl
      · rw [if_neg hz]
        constructor
        · constructor
          · intro hcon; exact Option.noConfusion hcon
          · intro ⟨hcon, _⟩; exact absurd hcon hz
        · exact Or.inr rfl
    | err e => rw [hn] at h; exact PResA.noConfusion h
    | div => rw [hn] at h; exact PResA.noConfusion h

/-- Claim C7 (amended): on a recoverable error (`skip = true`),
`display_error` records the message bound to the error code together with
the offending symbol's column, increments `error_count` by exactly one,
and advances until a `SEMICOLON`, `CURLY_CLOSE` or `EOF` symbol is
current — consuming that delimiter only when it is the semicolon: on
completion the current symbol is an unconsumed `CURLY_CLOSE` or `EOF`, or
the first symbol pulled past a reached `SEMICOLON`. -/
theorem C7_display_error_recovery :
    ∀ fuel e ps a ps1, display_error fuel e true ps = PResA.ok a ps1 →
    ps1.error_count = ps.error_count + 1 ∧
    (∃ msg, ParserC.errorDict e = some msg ∧
      ps1.printed = ps.printed ++ [(msg, ps.symbol.position)]) ∧
    (ps1.symbol.type = SymType.CURLY_CLOSE ∨ ps1.symbol.type = SymType.EOF ∨
      ∃ psm, psm.symbol.type = SymType.SEMICOLON ∧ pullPM psm = PResA.ok () ps1) := by
  intro fuel e ps a ps1 h
  obtain ⟨g1, _, _, _, _, gmsg⟩ := display_error_ok fuel e true ps a ps1 h
  refine ⟨g1, gmsg, ?_⟩
  unfold display_error at h
  cases hd : ParserC.errorDict e with
  | none => rw [hd] at h; exact PResA.noConfusion h
  | some msg =>
    rw [hd] at h
    dsimp only at h
    rw [if_neg (not_not_intro rfl)] at h
    cases hs : skip_to_delim fuel
        { ps with error_count := ps.error_count + 1,
                  printed := ps.printed ++ [(msg, ps.symbol.position)] } with
    | ok b ps3 =>
      rw [hs] at h
      dsimp only at h
      obtain ⟨_, _, _, _, _, _, f7⟩ := skip_to_delim_props fuel _ b ps3 hs
      by_cases hsemi : ps3.symbol.type = SymType.SEMICOLON
      · rw [if_pos hsemi] at h
        right; right
        refine ⟨ps3, hsemi, ?_⟩
        cases a
        exact h
      · rw [if_neg hsemi] at h
        cases h
        rcases f7 with f | f | f
        · exact absurd f hsemi
        · exact Or.inl f
        · exact Or.inr (Or.inl f)
    | err e2 => rw [hs] at h; exact PResA.noConfusion h
    | div => rw [hs] at h; exact PResA.noConfusion h

/- ======= Concrete runs: claim evaluations, counterexamples, witnesses ======= -/

/-- The scenario input of the specification (section 8). -/
def c1_input : String :=
  "Device\x7b A is AND 2 inputs; \x7d Connection\x7b \x7d Monitor\x7b A \x7d "

set_option smartUnfolding false in
/-- Claim C1: the specification's scenario fails on the code.  On the input
`Device\x7b A is AND 2 inputs; \x7d Connection\x7b \x7d Monitor\x7b A \x7d `
the parser does not return true with one device call and one monitor call:
the constructor's eager lookahead symbol (the `Device` keyword) is
discarded by the main loop's immediate `get_symbol`, the parser sees the
open brace at top level, reports `NO_SECTIONS` and aborts — `parse_network`
returns `None` with `error_count = 1` and an empty builder-call trace. -/
theorem C1_scenario_rejected :
    runRet c1_input 99 = some none ∧
    (runState c1_input 99).map (fun ps => (ps.error_count, ps.calls)) = some (1, []) := by
  constructor
  · decide
  · decide

/-- Claim C2: `Names.lookup` never returns a list of ids.  Its guards
require the argument to be both a `str` and a `list`, so every call with a
list of strings raises `TypeError`; and even past the guards the loop body
would return only the last id (`return id`, not `ids`), here id 1 for a
two-element list rather than the list `[0, 1]`. -/
theorem C2_lookup_raises_type_error :
    Names.lookup Names.init ["Alice", "Bob"] =
      Except.error "TypeError: Expected name_string to be a string." ∧
    (Names.lookup_body Names.init ["Alice", "Bob"]).1 = some 1 :=
  ⟨rfl, rfl⟩

set_option smartUnfolding false in
/-- Claim C3, counterexample: `parse_network` does not return a boolean on
failure.  On empty input it reports `NO_SECTIONS` and falls off the end of
the function, returning Python `None` (embedded `none`) — not `False`. -/
theorem C3_empty_input_returns_none :
    runRet "" 20 = some none ∧
    (runState "" 20).map (fun ps => ps.error_count) = some 1 := by
  constructor
  · decide
  · decide

def c3_ok_input : String := "x Device\x7b \x7d Connection\x7b \x7d Monitor\x7b \x7d"

def c3_start : ParserState :=
  match pullPM (mkPipeline c3_ok_input) with
  | PResA.ok _ p => p
  | _ => mkPipeline c3_ok_input

def c3_ret : Option Bool :=
  match parse_network 99 c3_start with
  | PResA.ok r _ => r
  | _ => none

def c3_final : ParserState :=
  match parse_network 99 c3_start with
  | PResA.ok _ p => p
  | _ => c3_start

set_option smartUnfolding false in
/-- Witness for the amended claim C3 at a concrete successful run. -/
theorem C3_parse_network_success_iff_witness :
    (c3_ret = some true ↔ (c3_final.error_count = 0 ∧ c3_final.device_section = true ∧
      c3_final.connection_section = true ∧ c3_final.monitor_section = true)) ∧
    (c3_ret = some true ∨ c3_ret = none) :=
  C3_parse_network_success_iff 99 c3_start c3_ret c3_final rfl

def c4_input : String := "x Device\x7b \x7d Device\x7b \x7d Connection\x7b \x7d Monitor\x7b \x7d"

set_option smartUnfolding false in
/-- Claim C4: a duplicated section keyword is NOT reported.  The input
with two `Device` sections parses with `error_count = 0` and
`parse_network` returns `True`; no syntax error is recorded for the
duplicate (the section-order checks of parse.py lines 135-153 are
commented out). -/
theorem C4_duplicate_device_section_accepted :
    runRet c4_input 99 = some (some true) ∧
    (runState c4_input 99).map (fun ps => ps.error_count) = some 0 := by
  constructor
  · decide
  · decide

namespace Scanner

/-- The symbol of a successful `get_symbol` result. -/
def scanOkSym : ScanRes → Option Symbol
  | ScanRes.ok sym _ => some sym
  | _ => none

/-- The state of a successful `get_symbol` result. -/
def scanOkState : ScanRes → Option ScanState
  | ScanRes.ok _ st => some st
  | _ => none

set_option smartUnfolding false in
/-- Claim C5: comments are not skipped.  A `//` opener consumes only the
two opening slashes and returns a `BULKCOMMENT` symbol with the scanner
left INSIDE the comment body (at `a`); the next call tokenizes the body,
returning a `NAME` symbol and interning the comment word `ab`.  A `#`
comment returns a `LINECOMMENT` symbol of its own and leaves the scanner
on the newline, not past it. -/
theorem C5_comments_produce_symbols :
    (scanOkSym (get_symbol (mkScanner "//ab// x"))).map Symbol.type =
      some SymType.BULKCOMMENT ∧
    (scanOkState (get_symbol (mkScanner "//ab// x"))).map
      (fun st => st.current_character) = some (some 'a') ∧
    ((scanOkState (get_symbol (mkScanner "//ab// x"))).bind
      (fun st => scanOkSym (get_symbol st))).map Symbol.type = some SymType.NAME ∧
    ((scanOkState (get_symbol (mkScanner "//ab// x"))).bind
      (fun st => scanOkState (get_symbol st))).map (fun st => st.names) =
      some ((mkScanner "//ab// x").names ++ ["ab"]) ∧
    (scanOkSym (get_symbol (mkScanner "#c\nA"))).map Symbol.type =
      some SymType.LINECOMMENT ∧
    (scanOkState (get_symbol (mkScanner "#c\nA"))).map
      (fun st => st.current_character) = some (some '\n') := by
  refine ⟨?_, ?_, ?_, ?_, ?_, ?_⟩ <;> decide

end Scanner

def c6_input : String := "x Device\x7b \x7d Monitor\x7b A, B; \x7d"

set_option smartUnfolding false in
/-- Claim C6: a monitor-builder call occurs with `error_count > 0`.  In
`Monitor\x7b A, B; \x7d` the first `make_monitor` fails (code 13,
`NOT_OUTPUT`, no such device) and `display_error` raises `error_count` to
1; because the monitor build loop (parse.py lines 404-408) lacks the
`break` of the device and connection loops, `make_monitor` is then still
invoked for `B` at `error_count = 1`, as the recorded trace shows. -/
theorem C6_monitor_built_after_error :
    (runState c6_input 99).map (fun ps => ps.calls) =
      some [BuilderCall.monitor (some (PyVal.int 23)) none 0,
            BuilderCall.monitor (some (PyVal.int 24)) none 1] ∧
    (runState c6_input 99).map
      (fun ps => ps.calls.any (fun c => decide (0 < c.ec))) = some true := by
  constructor
  · decide
  · decide

def c7_state : ParserState :=
  { mkPipeline "x" with
    symbol := { type := SymType.CURLY_CLOSE, id := none, line_number := 0, position := 4 } }

set_option smartUnfolding false in
/-- Claim C7, counterexample: recovery does not consume a `CURLY_CLOSE`
delimiter.  From a state whose current symbol is the closing brace,
`display_error` records the message and increments the count but leaves
both the scanner state and the current symbol untouched — only a
`SEMICOLON` is consumed (parse.py lines 471-472). -/
theorem C7_close_brace_not_consumed :
    display_error 9 ParserC.NO_SEMICOLON true c7_state =
      PResA.ok ()
        { c7_state with error_count := 1,
                        printed := [("Error: Expected a \x27;\x27", 4)] } := by
  rfl

def c7_wit_state : ParserState :=
  { mkPipeline "x" with
    symbol := { type := SymType.SEMICOLON, id := none, line_number := 0, position := 4 } }

def c7_wit_res : ParserState :=
  match display_error 9 ParserC.NO_SEMICOLON true c7_wit_state with
  | PResA.ok _ p => p
  | _ => c7_wit_state

set_option smartUnfolding false in
/-- Witness for the amended claim C7 at a concrete recovery that reaches
a semicolon. -/
theorem C7_display_error_recovery_witness :
    c7_wit_res.error_count = c7_wit_state.error_count + 1 ∧
    (∃ msg, ParserC.errorDict ParserC.NO_SEMICOLON = some msg ∧
      c7_wit_res.printed = c7_wit_state.printed ++ [(msg, c7_wit_state.symbol.position)]) ∧
    (c7_wit_res.symbol.type = SymType.CURLY_CLOSE ∨ c7_wit_res.symbol.type = SymType.EOF ∨
      ∃ psm, psm.symbol.type = SymType.SEMICOLON ∧ pullPM psm = PResA.ok () c7_wit_res) :=
  C7_display_error_recovery 9 ParserC.NO_SEMICOLON c7_wit_state () c7_wit_res rfl

/-- Claim C8: the round trip through `lookup` is impossible — interning
even a single string raises `TypeError` at the contradictory input guards,
although `get_name_string` itself correctly inverts an id already present
in the table. -/
theorem C8_roundtrip_lookup_raises :
    Names.lookup Names.init ["A"] =
      Except.error "TypeError: Expected name_string to be a string." ∧
    Names.get_name_string { error_code_count := 0, names := ["A"] } 0 =
      Except.ok (some "A") :=
  ⟨rfl, rfl⟩

namespace Scanner

/-- The symbol produced by scanning the filler word of `" gate"`. -/
def c9_sym : Symbol :=
  match get_symbol (mkScanner " gate") with
  | ScanRes.ok sym _ => sym
  | _ => { type := SymType.EOF, id := none, line_number := 0, position := 0 }

/-- The scanner state after scanning the filler word of `" gate"`. -/
def c9_st : ScanState :=
  match get_symbol (mkScanner " gate") with
  | ScanRes.ok _ st => st
  | _ => mkScanner " gate"

set_option smartUnfolding false in
/-- Witness for claim C9: scanning the filler word `gate` yields kind
`NONE` and leaves the name table unchanged. -/
theorem C9_filler_words_not_interned_witness :
    c9_sym.type = SymType.NONE ∧ c9_st.names = (mkScanner " gate").names := by
  have h : get_symbol (mkScanner " gate") = ScanRes.ok c9_sym c9_st := by decide
  have H := C9_filler_words_not_interned (mkScanner " gate") c9_sym c9_st h
  have h1 : c9_sym.type = SymType.NONE := H.1 ⟨"gate", by decide, by decide⟩
  exact ⟨h1, H.2.1 h1⟩

set_option smartUnfolding false in
/-- Witness for claim C10 on a concrete input whose `#` comment is closed
by a newline. -/
theorem C10_get_symbol_terminates_witness :
    get_symbol (mkScanner "# c\nA") ≠ ScanRes.div :=
  C10_get_symbol_terminates (mkScanner "# c\nA") (by decide) (by decide)

end Scanner

end Logsim
